import Mathlib

/-!
Shallow embedding of `visualize.py` (Traffic Simulation Visualizer):
the playback controller (`_frames_forward`, `_frames_back`, key handling),
the render loop (`main_loop`), and the pixel coordinate computations of the
scene renderer (`_draw_cars`, `_draw_traffic_lights`, `_draw_indicators`,
`_render_situation`).

Python integers are modelled as `ℤ`, Python floats as `ℚ` (every concrete
value used in a theorem below is a dyadic rational that float64 represents
exactly, so rational arithmetic coincides with the float arithmetic of the
program on those inputs), Python `int()` as truncation toward zero, and
Python `//` as `Int.fdiv` (floor division).
-/

namespace Visualize

/-- Python `int()` applied to a numeric value: truncation toward zero. -/
def pyInt (q : ℚ) : ℤ := if 0 ≤ q then ⌊q⌋ else ⌈q⌉

/-- Python list indexing `l[i]`: nonnegative indices from the front,
negative indices from the back, `none` models the `IndexError`. -/
def pyListGet {α : Type} (l : List α) (i : ℤ) : Option α :=
  if 0 ≤ i then l[i.toNat]?
  else if 0 ≤ (l.length : ℤ) + i then l[((l.length : ℤ) + i).toNat]?
  else none

/-- The mutable playback state of `Visualizer`: `_time_idx`, `_paused`,
`_playback_rate` (`_timeline` is passed separately, it is append-only and
frozen before the loop). -/
structure PlaybackState where
  time_idx : ℤ
  paused : Bool
  playback_rate : ℤ
deriving DecidableEq, Repr

/-- `Visualizer._frames_back`: `self._time_idx = max(0, self._time_idx - n)`. -/
def frames_back (n : ℤ) (s : PlaybackState) : PlaybackState :=
  { s with time_idx := max 0 (s.time_idx - n) }

/-- `Visualizer._frames_forward`:
`self._time_idx = self._time_idx + n`; if the result is `≥ len(self._timeline)`
then `self._paused = True` and `self._time_idx = len(self._timeline) - 1`. -/
def frames_forward (timeline_len : ℕ) (n : ℤ) (s : PlaybackState) : PlaybackState :=
  let idx := s.time_idx + n
  if (timeline_len : ℤ) ≤ idx then
    { s with paused := true, time_idx := (timeline_len : ℤ) - 1 }
  else
    { s with time_idx := idx }

/-- `Visualizer._toggle_pause`. -/
def toggle_pause (s : PlaybackState) : PlaybackState :=
  { s with paused := !s.paused }

/-- The keys `_handle_key_down` distinguishes. -/
inductive Key where
  | space
  | r
  | other
deriving DecidableEq, Repr

/-- `Visualizer._handle_key_down`: space toggles pause, `r` resets
`_time_idx` to 0 (two independent `if`s, in this order). -/
def handle_key_down (k : Key) (s : PlaybackState) : PlaybackState :=
  let s1 := if k = Key.space then toggle_pause s else s
  if k = Key.r then { s1 with time_idx := 0 } else s1

/-- A traffic light record of a snapshot: `x`, `green`, optional `xs`/`xs0`. -/
structure Light where
  x : ℚ
  green : Bool
  xs : Option ℚ
  xs0 : Option ℚ
deriving DecidableEq, Repr

/-- A road record of a snapshot: `name`, `length`, `lights`, car positions. -/
structure Road where
  name : String
  length : ℚ
  lights : List Light
  cars : List ℚ
deriving DecidableEq, Repr

/-- One parsed timeline entry (a `situation` in `main_loop`). -/
structure Situation where
  time : ℚ
  roads : List Road
deriving DecidableEq, Repr

/-- `max(int(road['length']) for road in roads)` in `_render_situation`:
Python `max` over a generator, raising (`none`) on an empty sequence. -/
def max_road_length (roads : List Road) : Option ℤ :=
  match roads.map (fun r => pyInt r.length) with
  | [] => none
  | x :: xs => some (xs.foldl max x)

/-- `horizontal_scale = self._get_canvas_width() / max_road_length`
in `_render_situation`: `none` when the road list is empty (Python `max`
raises on an empty sequence) and `none` when the truncated maximum length
is 0 (Python raises ZeroDivisionError on division by the int 0). -/
def horizontal_scale (canvas_width : ℤ) (roads : List Road) : Option ℚ :=
  match max_road_length roads with
  | none => none
  | some m => if m = 0 then none else some ((canvas_width : ℚ) / (m : ℚ))

/-- One iteration of the `while True:` body of `main_loop`, restricted to the
playback-relevant lines 201–205: fetch `situation = self._timeline[self._time_idx]`
(`none` models the `IndexError`), then `if not self._paused:
self._frames_forward(self._playback_rate)`, then render the fetched
situation. Returns the rendered situation and the state after the tick. -/
def loop_tick (timeline : List Situation) (s : PlaybackState) :
    Option (Situation × PlaybackState) :=
  match pyListGet timeline s.time_idx with
  | none => none
  | some situation =>
      let s2 := if s.paused then s else frames_forward timeline.length s.playback_rate s
      some (situation, s2)

/-- Outcome of a bounded run of `main_loop`: how many ticks were started
(a tick counts as started as soon as the loop body is entered), the
situations rendered in order, whether the run aborted with an uncaught
`IndexError`, and the final playback state. -/
structure LoopResult where
  ticks_started : ℕ
  frames : List Situation
  crashed : Bool
  final : PlaybackState
deriving DecidableEq, Repr

/-- The `while True:` loop of `main_loop`, run for `fuel` ticks (quit after
`fuel` iterations models the quit event); a failed fetch aborts the run
inside the tick that attempted it. -/
def main_loop_run (timeline : List Situation) :
    ℕ → PlaybackState → ℕ → List Situation → LoopResult
  | 0, s, ticks, frames => ⟨ticks, frames.reverse, false, s⟩
  | fuel + 1, s, ticks, frames =>
    match loop_tick timeline s with
    | none => ⟨ticks + 1, frames.reverse, true, s⟩
    | some (sit, s2) => main_loop_run timeline fuel s2 (ticks + 1) (sit :: frames)

/-- `Visualizer.main_loop`: sets `self._time_idx = 0` (line 179) and enters
the render loop; there is no emptiness check on the timeline before the
loop. -/
def main_loop (timeline : List Situation) (fuel : ℕ) (s : PlaybackState) : LoopResult :=
  main_loop_run timeline fuel { s with time_idx := 0 } 0 []

/-- `_draw_traffic_lights`, per light: `light_x_offset = int(light['x']) *
horizontal_scale; light_x = self._get_canvas_origin_left() + int(light_x_offset)`. -/
def light_x_pixel (origin_left : ℤ) (light_x : ℚ) (scale : ℚ) : ℤ :=
  origin_left + pyInt ((pyInt light_x : ℚ) * scale)

/-- `_draw_cars`, per car: `car_width = max(1, int(self._get_car_width() *
horizontal_scale)); car_x_offset = int(car['x'] * horizontal_scale) - car_width;
car_x = self._get_canvas_origin_left() + int(car_x_offset)`. -/
def car_rect_x (origin_left : ℤ) (car_x : ℚ) (scale : ℚ) (car_width_cfg : ℤ) : ℤ :=
  let car_width := max 1 (pyInt ((car_width_cfg : ℚ) * scale))
  let car_x_offset := pyInt (car_x * scale) - car_width
  origin_left + car_x_offset

/-- Modelled from the spec: the spec's stated mapping rule
`pixel = origin + round(value * horizontal_scale)` with round-to-nearest,
used as the comparison point for the mapping the code actually computes. -/
def spec_round_pixel (origin : ℤ) (value : ℚ) (scale : ℚ) : ℤ :=
  origin + round (value * scale)

/-- An axis-aligned rectangle as passed to `pygame.Rect`. -/
structure Rect where
  x : ℤ
  y : ℤ
  w : ℤ
  h : ℤ
deriving DecidableEq, Repr

/-- `Visualizer._draw_indicators`: the deceleration-zone, full-stop-zone and
half-stop-zone rectangles, in draw order. Python `//` is floor division. -/
def draw_indicators (light_x road_y road_height deceleration_distance
    stopping_distance : ℤ) : List Rect :=
  let origin_y := road_y - Int.fdiv road_height 2
  [ ⟨light_x - deceleration_distance, origin_y, deceleration_distance, road_height⟩,
    ⟨light_x - stopping_distance, origin_y, stopping_distance, road_height⟩,
    ⟨light_x - Int.fdiv stopping_distance 2, origin_y,
      Int.fdiv stopping_distance 2, road_height⟩ ]

/-- The controller operations reachable from user input and the automatic
advance: `_frames_forward` (auto advance and right-arrow seek),
`_frames_back` (left-arrow seek), the `r` key (restart) and the space key
(pause toggle). -/
inductive Op where
  | forward (n : ℤ)
  | back (n : ℤ)
  | restart
  | toggle
deriving DecidableEq, Repr

/-- Step counts passed to `_frames_forward`/`_frames_back` are always ≥ 1
(`playback_rate ≥ 1` is asserted, user seeks pass 1 or the rate). -/
def Op.valid : Op → Prop
  | .forward n => 1 ≤ n
  | .back n => 1 ≤ n
  | .restart => True
  | .toggle => True

/-- Apply one controller operation, via the source functions. -/
def applyOp (timeline_len : ℕ) (op : Op) (s : PlaybackState) : PlaybackState :=
  match op with
  | .forward n => frames_forward timeline_len n s
  | .back n => frames_back n s
  | .restart => handle_key_down Key.r s
  | .toggle => handle_key_down Key.space s

/-- Apply a sequence of controller operations in order. -/
def applyOps (timeline_len : ℕ) (ops : List Op) (s : PlaybackState) : PlaybackState :=
  ops.foldl (fun s op => applyOp timeline_len op s) s

/-- The concrete 2-snapshot timeline of the end-to-end example: road "A" of
length 100, no lights, one car (at 10, then at 20). -/
def snap0 : Situation := ⟨0, [⟨"A", 100, [], [10]⟩]⟩

/-- Second snapshot of the end-to-end example. -/
def snap1 : Situation := ⟨1, [⟨"A", 100, [], [20]⟩]⟩

/-- The 2-snapshot timeline of the end-to-end example. -/
def timeline2 : List Situation := [snap0, snap1]

/-- Initial playback state of the end-to-end example: index 0, Running,
playback rate 1. -/
def s0 : PlaybackState := ⟨0, false, 1⟩

/-- A snapshot road list with lengths [50, 100, 25] (Coordinate Mapper
example). -/
def roads3 : List Road :=
  [⟨"a", 50, [], []⟩, ⟨"b", 100, [], []⟩, ⟨"c", 25, [], []⟩]

lemma le_foldl_max (l : List ℤ) (a : ℤ) : a ≤ l.foldl max a := by
  induction l generalizing a with
  | nil => simp
  | cons x xs ih => exact le_trans (le_max_left a x) (ih (max a x))

lemma mem_le_foldl_max (l : List ℤ) (a b : ℤ) (hb : b ∈ l) : b ≤ l.foldl max a := by
  induction l generalizing a with
  | nil => cases hb
  | cons x xs ih =>
    rcases List.mem_cons.mp hb with h | h
    · subst h
      exact le_trans (le_max_right a b) (le_foldl_max xs _)
    · exact ih (max a x) h

lemma foldl_max_mem (l : List ℤ) (a : ℤ) : l.foldl max a ∈ a :: l := by
  induction l generalizing a with
  | nil => simp
  | cons x xs ih =>
    rcases List.mem_cons.mp (ih (max a x)) with h | h
    · rcases max_choice a x with h2 | h2
      · rw [List.foldl_cons, h, h2]
        exact List.mem_cons_self _ _
      · rw [List.foldl_cons, h, h2]
        exact List.mem_cons_of_mem _ (List.mem_cons_self _ _)
    · rw [List.foldl_cons]
      exact List.mem_cons_of_mem _ (List.mem_cons_of_mem _ h)

lemma pyInt_of_nonneg (q : ℚ) (h : 0 ≤ q) : pyInt q = ⌊q⌋ := if_pos h

lemma pyInt_intCast (v : ℤ) : pyInt (v : ℚ) = v := by
  unfold pyInt
  by_cases h : 0 ≤ ((v : ℚ))
  · simp [h]
  · simp [h]

lemma round_eq_floor_of_fract_lt (x : ℚ) (h : Int.fract x < 1 / 2) :
    round x = ⌊x⌋ := by
  rw [round_eq, Int.floor_eq_iff]
  have hfl := Int.floor_le x
  have hadd := Int.floor_add_fract x
  constructor
  · linarith
  · linarith

/-- C1 counterexample: with a timeline of length 2, stepping forward by 1
from index 0 lands exactly on index 1 = length − 1, yet the paused flag
stays false — reaching length − 1 does not always set paused. -/
theorem frames_forward_exact_landing_no_pause :
    (frames_forward 2 1 ⟨0, false, 1⟩).time_idx = 2 - 1 ∧
    (frames_forward 2 1 ⟨0, false, 1⟩).paused = false := by
  decide

/-- C1 (amended): for a timeline of length L ≥ 1, an index ≥ 0 and n ≥ 1,
`_frames_forward` never produces an index ≥ L; the paused flag is forced
true (with the index clamped to L − 1) exactly when the incremented index
would be ≥ L, and a step that stays below L changes only the index. -/
theorem frames_forward_clamp_pause (L : ℕ) (n : ℤ) (s : PlaybackState)
    (hL : 1 ≤ L) (h0 : 0 ≤ s.time_idx) (hiL : s.time_idx < (L : ℤ)) (hn : 1 ≤ n) :
    (frames_forward L n s).time_idx < (L : ℤ) ∧
    ((L : ℤ) ≤ s.time_idx + n →
      (frames_forward L n s).time_idx = (L : ℤ) - 1 ∧
      (frames_forward L n s).paused = true) ∧
    (s.time_idx + n < (L : ℤ) →
      frames_forward L n s = { s with time_idx := s.time_idx + n }) := by
  refine ⟨?_, ?_, ?_⟩
  · unfold frames_forward
    by_cases h : (L : ℤ) ≤ s.time_idx + n
    · simp only [h, if_pos]
      omega
    · simp only [h, if_neg, not_false_iff]
      omega
  · intro h
    unfold frames_forward
    simp [h]
  · intro h
    unfold frames_forward
    simp [show ¬ (L : ℤ) ≤ s.time_idx + n from by omega]

/-- Witness for C1 (amended) at L = 2, n = 3, state ⟨1, false, 1⟩. -/
theorem frames_forward_clamp_pause_witness :
    1 ≤ 2 ∧ 0 ≤ (⟨1, false, 1⟩ : PlaybackState).time_idx ∧
    (⟨1, false, 1⟩ : PlaybackState).time_idx < (2 : ℤ) ∧ 1 ≤ (3 : ℤ) ∧
    ((frames_forward 2 3 ⟨1, false, 1⟩).time_idx < (2 : ℤ) ∧
     ((2 : ℤ) ≤ (⟨1, false, 1⟩ : PlaybackState).time_idx + 3 →
       (frames_forward 2 3 ⟨1, false, 1⟩).time_idx = (2 : ℤ) - 1 ∧
       (frames_forward 2 3 ⟨1, false, 1⟩).paused = true) ∧
     ((⟨1, false, 1⟩ : PlaybackState).time_idx + 3 < (2 : ℤ) →
       frames_forward 2 3 ⟨1, false, 1⟩ =
         { (⟨1, false, 1⟩ : PlaybackState) with
             time_idx := (⟨1, false, 1⟩ : PlaybackState).time_idx + 3 })) :=
  ⟨by decide, by decide, by decide, by decide,
    frames_forward_clamp_pause 2 3 ⟨1, false, 1⟩ (by decide) (by decide)
      (by decide) (by decide)⟩

/-- C6: the `r` key handler sets the index to 0 and leaves every other field
of the playback state (in particular the paused flag) unchanged. -/
theorem restart_key_resets_index_only (s : PlaybackState) :
    handle_key_down Key.r s = { s with time_idx := 0 } := by
  simp [handle_key_down]

/-- C7: with no clamping (index ≥ 0, n ≥ 0, index + n < length),
`_frames_forward(n)` followed by `_frames_back(n)` restores the index. -/
theorem forward_back_roundtrip (L : ℕ) (n : ℤ) (s : PlaybackState)
    (h0 : 0 ≤ s.time_idx) (hn : 0 ≤ n) (hnc : s.time_idx + n < (L : ℤ)) :
    (frames_back n (frames_forward L n s)).time_idx = s.time_idx := by
  unfold frames_forward frames_back
  simp only [show ¬ (L : ℤ) ≤ s.time_idx + n from by omega, if_neg, not_false_iff]
  have h1 : s.time_idx + n - n = s.time_idx := by ring
  simp [h1, max_eq_right h0]

/-- Witness for C7 at L = 5, n = 2, state ⟨1, true, 1⟩. -/
theorem forward_back_roundtrip_witness :
    0 ≤ (⟨1, true, 1⟩ : PlaybackState).time_idx ∧ 0 ≤ (2 : ℤ) ∧
    (⟨1, true, 1⟩ : PlaybackState).time_idx + 2 < (5 : ℤ) ∧
    (frames_back 2 (frames_forward 5 2 ⟨1, true, 1⟩)).time_idx =
      (⟨1, true, 1⟩ : PlaybackState).time_idx :=
  ⟨by decide, by decide, by decide,
    forward_back_roundtrip 5 2 ⟨1, true, 1⟩ (by decide) (by decide) (by decide)⟩

/-- C10: `_frames_back` never modifies the paused flag, for any state and
any n ≥ 1 — in particular stepping back while paused at the end, or
clamping at index 0, never resumes playback. -/
theorem frames_back_preserves_paused (n : ℤ) (s : PlaybackState) (h : 1 ≤ n) :
    (frames_back n s).paused = s.paused := by
  rfl

/-- Witness for C10 at n = 1 from state ⟨0, true, 1⟩ (clamped at index 0
while paused). -/
theorem frames_back_preserves_paused_witness :
    1 ≤ (1 : ℤ) ∧
    (frames_back 1 ⟨0, true, 1⟩).paused = (⟨0, true, 1⟩ : PlaybackState).paused :=
  ⟨by decide, frames_back_preserves_paused 1 ⟨0, true, 1⟩ (by decide)⟩

/-- C2 counterexample: with the 2-snapshot timeline, rate 1, Running at
index 0, one tick renders the snapshot fetched BEFORE the automatic
advance (snapshot 0, not 1) and leaves paused = false, not true. -/
theorem first_tick_renders_prefetch_snapshot :
    loop_tick timeline2 s0 = some (snap0, ⟨1, false, 1⟩) ∧ snap0 ≠ snap1 := by
  decide

/-- C2 (amended): every tick fetches the snapshot at the pre-advance index
(the fetch precedes the automatic advance); on the 2-snapshot rate-1
example the first tick renders snapshot 0 and leaves index 1 with paused
still false, and only the second tick renders snapshot 1 and sets
paused = true. -/
theorem tick_fetch_before_advance :
    (∀ (tl : List Situation) (s : PlaybackState),
        (loop_tick tl s).map Prod.fst = pyListGet tl s.time_idx) ∧
    main_loop timeline2 2 s0 = ⟨2, [snap0, snap1], false, ⟨1, true, 1⟩⟩ := by
  constructor
  · intro tl s
    unfold loop_tick
    cases h : pyListGet tl s.time_idx <;> simp
  · decide

/-- C5 counterexample: with an empty timeline the render loop is entered
and its first tick starts (ticks_started = 1 ≠ 0) before the run aborts
on the failed snapshot fetch — the program does not fail before entering
the loop. -/
theorem empty_timeline_tick_started :
    (main_loop [] 3 ⟨5, false, 1⟩).ticks_started = 1 ∧
    (main_loop [] 3 ⟨5, false, 1⟩).crashed = true := by
  decide

/-- C5 (amended): with an empty timeline and any positive tick budget, the
run aborts fatally during the first tick at the snapshot fetch (an
uncaught IndexError), with no frame ever rendered; there is no check
before the loop. -/
theorem empty_timeline_fails_in_first_tick (fuel : ℕ) (s : PlaybackState)
    (h : 1 ≤ fuel) :
    main_loop [] fuel s = ⟨1, [], true, { s with time_idx := 0 }⟩ := by
  obtain ⟨f, rfl⟩ : ∃ f, fuel = f + 1 := ⟨fuel - 1, by omega⟩
  unfold main_loop main_loop_run
  simp [loop_tick, pyListGet]

/-- Witness for C5 (amended) at fuel = 2, initial state ⟨7, true, 3⟩. -/
theorem empty_timeline_fails_in_first_tick_witness :
    1 ≤ 2 ∧ main_loop [] 2 ⟨7, true, 3⟩ =
      ⟨1, [], true, { (⟨7, true, 3⟩ : PlaybackState) with time_idx := 0 }⟩ :=
  ⟨by decide, empty_timeline_fails_in_first_tick 2 ⟨7, true, 3⟩ (by decide)⟩

/-- C3 counterexample: a signal at position 7 with horizontal scale 1/4
(e.g. canvas width 800, longest road 3200) maps to origin + 1 in the code
(truncation of 1.75), while the spec's round-to-nearest rule gives
origin + 2. -/
theorem pixel_mapping_not_round_nearest :
    light_x_pixel 0 7 (1 / 4) = 1 ∧ spec_round_pixel 0 7 (1 / 4) = 2 ∧
    light_x_pixel 0 7 (1 / 4) ≠ spec_round_pixel 0 7 (1 / 4) := by
  refine ⟨?_, ?_, ?_⟩ <;>
    norm_num [light_x_pixel, spec_round_pixel, pyInt, round_eq]

/-- C3 (amended): the code maps offsets with Python int() truncation, not
round-to-nearest: for an integer position v with v·scale ≥ 0 the signal
pixel is origin + ⌊v·scale⌋, which agrees with the spec's
origin + round(v·scale) exactly when the fractional part of v·scale is
below 1/2; the vehicle rectangle is additionally shifted left by the car
pixel width; position 50 at scale 8.0 still maps to origin + 400. -/
theorem pixel_mapping_truncates (origin v : ℤ) (s : ℚ) (cw : ℤ)
    (hvs : 0 ≤ (v : ℚ) * s) (hfrac : Int.fract ((v : ℚ) * s) < 1 / 2) :
    light_x_pixel origin (v : ℚ) s = spec_round_pixel origin (v : ℚ) s ∧
    car_rect_x origin (v : ℚ) s cw =
      spec_round_pixel origin (v : ℚ) s - max 1 (pyInt ((cw : ℚ) * s)) ∧
    light_x_pixel origin 50 8 = origin + 400 := by
  have hfl : pyInt ((v : ℚ) * s) = ⌊(v : ℚ) * s⌋ := pyInt_of_nonneg _ hvs
  have hround : round ((v : ℚ) * s) = ⌊(v : ℚ) * s⌋ :=
    round_eq_floor_of_fract_lt _ hfrac
  refine ⟨?_, ?_, ?_⟩
  · unfold light_x_pixel spec_round_pixel
    rw [pyInt_intCast, hfl, hround]
  · simp only [car_rect_x, spec_round_pixel, hfl, hround]
    ring
  · have h400 : pyInt ((pyInt (50 : ℚ) : ℚ) * 8) = 400 := by norm_num [pyInt]
    unfold light_x_pixel
    rw [h400]

/-- Witness for C3 (amended) at origin 0, position 50, scale 8, car width
4. -/
theorem pixel_mapping_truncates_witness :
    0 ≤ (((50 : ℤ) : ℚ)) * 8 ∧ Int.fract ((((50 : ℤ) : ℚ)) * 8) < 1 / 2 ∧
    (light_x_pixel 0 (((50 : ℤ) : ℚ)) 8 = spec_round_pixel 0 (((50 : ℤ) : ℚ)) 8 ∧
     car_rect_x 0 (((50 : ℤ) : ℚ)) 8 4 =
       spec_round_pixel 0 (((50 : ℤ) : ℚ)) 8 - max 1 (pyInt ((((4 : ℤ) : ℚ)) * 8)) ∧
     light_x_pixel 0 50 8 = 0 + 400) :=
  ⟨by norm_num, by norm_num [Int.fract],
    pixel_mapping_truncates 0 50 8 4 (by norm_num) (by norm_num [Int.fract])⟩

/-- C4 counterexample: a snapshot with one road of length 100.5 (a positive
numeric length, exact in float64) and canvas width 800: the code computes
800 / int(100.5) = 800 / 100 = 8, while canvas_width divided by the maximum
road length is 800 / 100.5 ≠ 8. -/
theorem horizontal_scale_truncates_length :
    horizontal_scale 800 [⟨"A", 201 / 2, [], []⟩] = some 8 ∧
    (800 : ℚ) / (201 / 2) ≠ 8 := by
  constructor
  · norm_num [horizontal_scale, max_road_length, pyInt]
  · norm_num

/-- C4 (amended): for a non-empty road list, `_render_situation` divides
canvas_width by the maximum of the int()-truncated road lengths (m occurs
among the truncated lengths and bounds them all); when that truncated
maximum is 0 the division raises ZeroDivisionError, otherwise the scale is
canvas_width / m. -/
theorem horizontal_scale_div_truncated_max (w : ℤ) (roads : List Road)
    (h : roads ≠ []) :
    ∃ m : ℤ, max_road_length roads = some m ∧
      m ∈ roads.map (fun r : Road => pyInt r.length) ∧
      (∀ r ∈ roads, pyInt r.length ≤ m) ∧
      (m = 0 → horizontal_scale w roads = none) ∧
      (m ≠ 0 → horizontal_scale w roads = some ((w : ℚ) / (m : ℚ))) := by
  obtain ⟨r0, rs, rfl⟩ := List.exists_cons_of_ne_nil h
  have hmax : max_road_length (r0 :: rs) =
      some ((rs.map (fun r : Road => pyInt r.length)).foldl max (pyInt r0.length)) := rfl
  refine ⟨(rs.map (fun r : Road => pyInt r.length)).foldl max (pyInt r0.length),
    hmax, ?_, ?_, ?_, ?_⟩
  · have hm := foldl_max_mem (rs.map (fun r : Road => pyInt r.length)) (pyInt r0.length)
    simpa using hm
  · intro r hr
    rcases List.mem_cons.mp hr with h1 | h1
    · subst h1
      exact le_foldl_max _ _
    · exact mem_le_foldl_max _ _ _ (List.mem_map_of_mem _ h1)
  · intro hm
    unfold horizontal_scale
    rw [hmax]
    simp [hm]
  · intro hm
    unfold horizontal_scale
    rw [hmax]
    simp [hm]

/-- Witness for C4 (amended) on roads of lengths [50, 100, 25] and canvas
width 800: the truncated maximum is nonzero and the scale is 8. -/
theorem horizontal_scale_div_truncated_max_witness :
    roads3 ≠ [] ∧
    (∃ m : ℤ, max_road_length roads3 = some m ∧
      m ∈ roads3.map (fun r : Road => pyInt r.length) ∧
      (∀ r ∈ roads3, pyInt r.length ≤ m) ∧
      (m = 0 → horizontal_scale 800 roads3 = none) ∧
      (m ≠ 0 → horizontal_scale 800 roads3 = some ((800 : ℚ) / (m : ℚ)))) ∧
    horizontal_scale 800 roads3 = some 8 :=
  ⟨by decide, horizontal_scale_div_truncated_max 800 roads3 (by decide),
    by norm_num [horizontal_scale, max_road_length, roads3, pyInt]⟩

/-- C8 counterexample: for a full-stop zone of odd pixel width 5 (signal at
x = 100, road center y = 50, road height 20, deceleration width 30), the
half-stop rectangle has width 2 and left offset 2, and twice 2 is not 5 —
the half zone is not exactly half of the full zone. -/
theorem half_zone_odd_width_not_exact_half :
    draw_indicators 100 50 20 30 5 =
      [⟨70, 40, 30, 20⟩, ⟨95, 40, 5, 20⟩, ⟨98, 40, 2, 20⟩] ∧
    (2 : ℤ) * 2 ≠ 5 := by
  decide

/-- C8 (amended): the half-stop rectangle's width and left offset from the
signal are the floor of half the full-stop rectangle's width and offset
(exactly half only for even widths); the full-stop rectangle has width and
offset equal to the stopping distance. -/
theorem half_zone_floor_half (lx ry rh dd sd : ℤ) :
    ∃ dec full half : Rect,
      draw_indicators lx ry rh dd sd = [dec, full, half] ∧
      half.w = Int.fdiv full.w 2 ∧ lx - half.x = Int.fdiv (lx - full.x) 2 ∧
      full.w = sd ∧ lx - full.x = sd := by
  refine ⟨_, _, _, rfl, rfl, ?_, rfl, by ring⟩
  have h1 : lx - (lx - sd) = sd := by ring
  rw [h1]
  ring

lemma applyOp_valid_idx (L : ℕ) (hL : 1 ≤ L) (op : Op) (hv : op.valid)
    (s : PlaybackState) (h0 : 0 ≤ s.time_idx) (h1 : s.time_idx < (L : ℤ)) :
    0 ≤ (applyOp L op s).time_idx ∧ (applyOp L op s).time_idx < (L : ℤ) := by
  cases op with
  | forward n =>
    have hn : 1 ≤ n := hv
    unfold applyOp frames_forward
    by_cases h : (L : ℤ) ≤ s.time_idx + n
    · simp only [h, if_pos]
      omega
    · simp only [h, if_neg, not_false_iff]
      omega
  | back n =>
    have hn : 1 ≤ n := hv
    unfold applyOp frames_back
    simp only []
    omega
  | restart =>
    unfold applyOp handle_key_down
    simp
    omega
  | toggle =>
    unfold applyOp handle_key_down toggle_pause
    simp
    omega

/-- C9: from the initial state (index 0, any paused flag, any rate), every
sequence of controller operations with valid step counts keeps the index a
valid timeline position (0 ≤ index < L) whenever the timeline is non-empty
(L ≥ 1). -/
theorem reachable_index_valid (L : ℕ) (ops : List Op) (p : Bool) (r : ℤ)
    (hL : 1 ≤ L) (hv : ∀ op ∈ ops, op.valid) :
    0 ≤ (applyOps L ops ⟨0, p, r⟩).time_idx ∧
    (applyOps L ops ⟨0, p, r⟩).time_idx < (L : ℤ) := by
  have main : ∀ (ops2 : List Op) (s : PlaybackState), (∀ op ∈ ops2, op.valid) →
      0 ≤ s.time_idx → s.time_idx < (L : ℤ) →
      0 ≤ (applyOps L ops2 s).time_idx ∧ (applyOps L ops2 s).time_idx < (L : ℤ) := by
    intro ops2
    induction ops2 with
    | nil =>
      intro s _ h0 h1
      exact ⟨h0, h1⟩
    | cons op rest ih =>
      intro s hv2 h0 h1
      have h2 := applyOp_valid_idx L hL op (hv2 op (List.mem_cons_self _ _)) s h0 h1
      have h3 := ih (applyOp L op s) (fun o ho => hv2 o (List.mem_cons_of_mem _ ho)) h2.1 h2.2
      simpa [applyOps, List.foldl_cons] using h3
  have h0 : (0 : ℤ) ≤ (⟨0, p, r⟩ : PlaybackState).time_idx := le_refl 0
  have h1 : (⟨0, p, r⟩ : PlaybackState).time_idx < (L : ℤ) := by
    show (0 : ℤ) < (L : ℤ)
    omega
  exact main ops ⟨0, p, r⟩ hv h0 h1

/-- Witness for C9: timeline length 2, operations forward 1, toggle, back
2, restart from index 0 running at rate 1. -/
theorem reachable_index_valid_witness :
    1 ≤ 2 ∧ (∀ op ∈ [Op.forward 1, Op.toggle, Op.back 2, Op.restart], op.valid) ∧
    (0 ≤ (applyOps 2 [Op.forward 1, Op.toggle, Op.back 2, Op.restart]
        ⟨0, false, 1⟩).time_idx ∧
      (applyOps 2 [Op.forward 1, Op.toggle, Op.back 2, Op.restart]
        ⟨0, false, 1⟩).time_idx < (2 : ℤ)) :=
  ⟨by decide,
    by norm_num [List.forall_mem_cons, Op.valid],
    reachable_index_valid 2 [Op.forward 1, Op.toggle, Op.back 2, Op.restart]
      false 1 (by decide) (by norm_num [List.forall_mem_cons, Op.valid])⟩

end Visualize
